import Mathlib

/-!
Shallow embedding of the MMO world server (`src/server.js`) together with the
item records produced by `src/models/items.js`.

Conventions of the embedding:
* JavaScript numbers are modelled as rationals (`ℚ`); `null`/absent fields as
  `Option`; the truthiness of `x || d` for numbers by `jsOrQ` (`0` is falsy)
  and for strings by `jsOrStr` (`""` is falsy).
* The source compares `Math.sqrt(dx^2 + dy^2)` with a positive threshold `t`;
  since `Real.sqrt` is strictly monotone on nonnegatives, `sqrt s < t ↔ s < t^2`
  and `sqrt s ≤ t ↔ s ≤ t^2`, so the embedding compares squared distances with
  squared thresholds and never needs square roots.
* The global mutable stores (`players`, `worldItems`, `clientSessions`) become
  a `ServerState` record threaded through the handlers; association lists stand
  for the JS objects/`Map` keyed by strings.
* A thrown exception inside the `ws.on("message")` `try` block (which in the
  source is caught, aborting the handler before the final broadcast) is
  modelled by the handler returning `none`.  Every such throw in the modelled
  code paths happens before any store mutation, so `none` carries no state.
* Outbound `ws.send`/broadcasts become a list of `(Dest, OutMsg)` pairs,
  `setTimeout(...)` collection callbacks become explicit `PendingTimer` records
  whose later firing is the function `collectionTimerFire`.
-/

structure Position where
  lat : ℚ
  lng : ℚ
deriving DecidableEq

/-- The `stats` object of an item (`src/models/items.js`); every template sets
only some of the fields, the rest are absent. -/
structure ItemStats where
  attack : Option ℚ
  defense : Option ℚ
  heal : Option ℚ
  value : Option ℚ
deriving DecidableEq

/-- A world/inventory item record as created by `createItemFromTemplate` and
mutated by `server.js` (the `createdAt : Date` field is omitted: it is never
read by the server).  `beingCollected`/`collectorId` start out absent
(falsy) in JS, modelled as `false`/`none`. -/
structure Item where
  itemId : String
  id : String
  name : String
  type : String
  rarity : String
  description : String
  imageUrl : String
  stats : ItemStats
  position : Position
  collectionTime : Option ℚ
  beingCollected : Bool
  collectorId : Option String
deriving DecidableEq

structure PlayerStatBlock where
  strength : ℚ
  dexterity : ℚ
  intelligence : ℚ
  stamina : ℚ
deriving DecidableEq

/-- A player record as created on connection (`server.js` lines 183-200). -/
structure Player where
  id : String
  name : String
  position : Position
  avatar : String
  hp : ℚ
  level : ℚ
  xp : ℚ
  gold : ℚ
  inventory : List Item
  stats : PlayerStatBlock
  lastMessage : String
deriving DecidableEq

/-- The shared mutable stores of `server.js`: `players`, `worldItems`,
`clientSessions` (clientId → playerId), and the `avatars` constant. -/
structure ServerState where
  players : List (String × Player)
  worldItems : List Item
  clientSessions : List (String × String)
  avatars : List String
deriving DecidableEq

/-- Association-list lookup, standing for `obj[key]` / `map.get(key)`. -/
def lookupA {α : Type} : List (String × α) → String → Option α
  | [], _ => none
  | (k', v) :: rest, k => if k' = k then some v else lookupA rest k

/-- Association-list in-place field update, standing for mutating
`obj[key]` when the key is present. -/
def updateA {α : Type} : List (String × α) → String → (α → α) → List (String × α)
  | [], _, _ => []
  | (k', v) :: rest, k, f =>
      if k' = k then (k', f v) :: rest else (k', v) :: updateA rest k f

/-- `findIndex` fused with the subsequent index access: returns the first
index/element satisfying the predicate, as the source always reads
`arr[arr.findIndex(p)]` right after a successful `findIndex`. -/
def findWithIdxP {α : Type} (p : α → Bool) : List α → Option (ℕ × α)
  | [] => none
  | x :: xs =>
      if p x then some (0, x)
      else (findWithIdxP p xs).map (fun r => (r.1 + 1, r.2))

/-- JS `x || d` for an optional number: `undefined`/`null` and `0` fall back. -/
def jsOrQ (x : Option ℚ) (d : ℚ) : ℚ :=
  match x with
  | none => d
  | some v => if v = 0 then d else v

/-- JS truthiness of an optional number. -/
def jsTruthyQ (x : Option ℚ) : Bool :=
  match x with
  | none => false
  | some v => decide (v ≠ 0)

/-- JS `x || d` for an optional string: `undefined`/`null` and `""` fall back. -/
def jsOrStr (x : Option String) (d : String) : String :=
  match x with
  | none => d
  | some s => if s = "" then d else s

/-- JS truthiness of an optional string. -/
def jsTruthyStr (x : Option String) : Bool :=
  match x with
  | none => false
  | some s => decide (s ≠ "")

/-- Squared Euclidean distance over the flat lat/lng plane; the source
computes `Math.sqrt` of exactly this sum (lines 260-263, 442-445, 532-535). -/
def distSq (a b : Position) : ℚ :=
  (b.lat - a.lat) ^ 2 + (b.lng - a.lng) ^ 2

/-- Pickup proximity gate, `dist < 0.001` of line 267 (strict), embedded on
squared values. -/
def pickupInRange (playerPos itemPos : Position) : Bool :=
  decide (distSq playerPos itemPos < (1 / 1000 : ℚ) ^ 2)

/-- Combat/heal proximity gate, `dist <= 0.0002` of lines 447 and 537
(inclusive), embedded on squared values. -/
def combatInRange (actorPos targetPos : Position) : Bool :=
  decide (distSq actorPos targetPos ≤ (2 / 10000 : ℚ) ^ 2)

/-- `isAuthorizedForPlayer` of lines 166-168. -/
def isAuthorizedForPlayer (st : ServerState) (clientId targetPlayerId : String) : Bool :=
  lookupA st.clientSessions clientId == some targetPlayerId

/-- Destination of an outbound send: the requesting socket (`ws.send`), the
socket currently bound to a given player (the `targetClient` searches of lines
460-463 and 554-557), or all open sockets (`wss.clients.forEach`). -/
inductive Dest where
  | requester
  | toClient (playerId : String)
  | broadcast
deriving DecidableEq

/-- Outbound message bodies, one constructor per `type` tag the modelled
handlers emit, with the dynamic payload fields. -/
inductive OutMsg where
  | collection_started (itemId : String) (collectionTime : ℚ)
  | collection_error (message : String)
  | collection_complete (itemId : String) (playerGold : ℚ) (inventory : List Item)
  | collection_canceled (itemId : String)
  | item_used (message : String) (newHP : Option ℚ) (actionType : String) (amount : Option ℚ)
  | weapon_ready (message : String) (weaponId : String) (damage : ℚ)
  | attack_success (message : String) (targetName : String) (damage : ℚ)
  | attacked (message : String) (attackerName : String) (damage : ℚ) (currentHP : ℚ)
  | attack_failed (message : String)
  | heal_success (message : String) (targetName : String) (healAmount : ℚ)
  | healed (message : String) (healerName : String) (healAmount : ℚ) (currentHP : ℚ)
  | heal_failed (message : String)
  | item_dropped (message : String) (itemName : String)
  | profile_data (playerProfile : Player) (isOwnProfile : Bool)
  | world_update (players : List (String × Player)) (items : List Item)
  | player_left (playerId : String)
deriving DecidableEq

abbrev Sent := Dest × OutMsg

/-- A scheduled `setTimeout` collection-completion callback: the values the
closure of lines 287-323 captures and later uses — the item identity, the
collecting player's identity, and the delay. -/
structure PendingTimer where
  itemId : String
  playerId : String
  delay : ℚ
deriving DecidableEq

/-- Result of one message handler: the new stores, the messages sent, and the
collection timers scheduled. -/
structure HandleResult where
  state : ServerState
  sent : List Sent
  timers : List PendingTimer
deriving DecidableEq

/-- Inbound message bodies (the `data` record minus the shared optional
`playerId` field).  `drop_item` carries the fresh identity the source derives
from `Date.now()` and `Math.random()` (line 605) as an explicit input. -/
inductive MsgBody where
  | update_position (position : Position)
  | chat_message (message : String)
  | pickup_item (itemId : String)
  | add_to_inventory
  | cancel_collection (itemId : String)
  | use_item (itemId : String)
  | attack_player (targetPlayerId : String) (weaponId : String) (damage : Option ℚ)
  | heal_player (targetPlayerId : String) (itemId : String) (healAmount : Option ℚ)
  | drop_item (itemId : String) (freshItemId : String)
  | view_profile (profilePlayerId : String)
  | update_profile (name : Option String)
  | update_avatar (avatar : String)
deriving DecidableEq

/-- A parsed inbound message: the optional `data.playerId` plus the body. -/
structure InMsg where
  playerId : Option String
  body : MsgBody
deriving DecidableEq

/-- Whether the body is a `view_profile` request (the exemption in the
authorization gate of line 236). -/
def isViewProfile : MsgBody → Bool
  | .view_profile _ => true
  | _ => false

/-- JS `\w` without the `u` flag: `[A-Za-z0-9_]`. -/
def isWordChar (c : Char) : Bool :=
  decide (('a' ≤ c ∧ c ≤ 'z') ∨ ('A' ≤ c ∧ c ≤ 'Z') ∨ ('0' ≤ c ∧ c ≤ '9') ∨ c = '_')

/-- JS `\s`: ASCII whitespace plus the Unicode space separators and BOM. -/
def isJsSpace (c : Char) : Bool :=
  decide (c = ' ' ∨ c = '\t' ∨ c = '\n' ∨ c.toNat = 11 ∨ c.toNat = 12 ∨ c = '\r' ∨
    c.toNat = 160 ∨ c.toNat = 5760 ∨ (8192 ≤ c.toNat ∧ c.toNat ≤ 8202) ∨
    c.toNat = 8232 ∨ c.toNat = 8233 ∨ c.toNat = 8239 ∨ c.toNat = 8287 ∨
    c.toNat = 12288 ∨ c.toNat = 65279)

/-- `data.name.replace(/[^\w\s-]/gi, '').substring(0, 20)` of line 640. -/
def sanitizeName (s : String) : String :=
  String.mk (((s.toList.filter
    (fun c => isWordChar c || isJsSpace c || c == '-'))).take 20)

/-- `pickup_item` handler, `server.js` lines 250-341.  The item-not-found
branch (lines 338-340) only logs, sending nothing. -/
def handlePickup (st : ServerState) (playerId itemId : String) : Option HandleResult :=
  match findWithIdxP (fun it => it.itemId == itemId) st.worldItems with
  | none => some ⟨st, [], []⟩
  | some (itemIndex, item) =>
    match lookupA st.players playerId with
    | none => none
    | some actor =>
      if pickupInRange actor.position item.position then
        if !item.beingCollected then
          let collectionTime := jsOrQ item.collectionTime 3000
          let item' := { item with beingCollected := true, collectorId := some playerId }
          some ⟨{ st with worldItems := st.worldItems.set itemIndex item' },
                [(Dest.requester, OutMsg.collection_started item.itemId collectionTime)],
                [⟨item.itemId, playerId, collectionTime⟩]⟩
        else if item.collectorId ≠ some playerId then
          some ⟨st,
                [(Dest.requester,
                  OutMsg.collection_error "This item is being collected by another player")],
                []⟩
        else some ⟨st, [], []⟩
      else
        some ⟨st,
              [(Dest.requester, OutMsg.collection_error "Item is too far away to collect")],
              []⟩

/-- The `setTimeout` completion callback of lines 287-323, fired with the
closure-captured item identity and collector identity.  (The closure also
reads `item.type`/`item.stats`/`item.name`, but since item identities are
unique the re-looked-up `worldItems[currentItemIndex]` is the very same
record, so reading them from the found item is equivalent.)  When the guard
passes but the collector has been deleted from `players`, the source throws
before mutating anything; that branch returns the state unchanged here. -/
def collectionTimerFire (st : ServerState) (itemId playerId : String) :
    ServerState × List Sent :=
  match findWithIdxP (fun it => it.itemId == itemId) st.worldItems with
  | none => (st, [])
  | some (i, it) =>
    if it.collectorId = some playerId then
      match lookupA st.players playerId with
      | none => (st, [])
      | some p =>
        if it.type == "collectible" && jsTruthyQ it.stats.value then
          let v := jsOrQ it.stats.value 0
          let players' := updateA st.players playerId (fun q => { q with gold := q.gold + v })
          let items' := st.worldItems.eraseIdx i
          ({ st with players := players', worldItems := items' },
           [(Dest.requester, OutMsg.collection_complete it.itemId (p.gold + v) p.inventory),
            (Dest.broadcast, OutMsg.world_update players' items')])
        else
          let players' := updateA st.players playerId
            (fun q => { q with inventory := q.inventory ++ [it] })
          let items' := st.worldItems.eraseIdx i
          ({ st with players := players', worldItems := items' },
           [(Dest.requester, OutMsg.collection_complete it.itemId p.gold (p.inventory ++ [it])),
            (Dest.broadcast, OutMsg.world_update players' items')])
    else (st, [])

/-- `cancel_collection` handler, lines 348-364. -/
def handleCancel (st : ServerState) (playerId itemId : String) : Option HandleResult :=
  match findWithIdxP
      (fun it => it.itemId == itemId && it.collectorId == some playerId)
      st.worldItems with
  | none => some ⟨st, [], []⟩
  | some (i, it) =>
    let items' := st.worldItems.set i { it with beingCollected := false, collectorId := none }
    some ⟨{ st with worldItems := items' },
          [(Dest.requester, OutMsg.collection_canceled itemId)], []⟩

/-- `use_item` handler, lines 366-421. -/
def handleUseItem (st : ServerState) (playerId itemId : String) : Option HandleResult :=
  match lookupA st.players playerId with
  | none => none
  | some p =>
    match findWithIdxP (fun it => it.itemId == itemId) p.inventory with
    | none => some ⟨st, [], []⟩
    | some (i, item) =>
      if item.type == "consumable" then
        if jsTruthyQ item.stats.heal then
          let hv := jsOrQ item.stats.heal 0
          let newHP := min 100 (p.hp + hv)
          let players' := updateA st.players playerId
            (fun q => { q with hp := min 100 (q.hp + hv), inventory := q.inventory.eraseIdx i })
          some ⟨{ st with players := players' },
                [(Dest.requester, OutMsg.item_used
                    (s!"You used {item.name} and gained {hv} health!")
                    (some newHP) "heal" (some hv))], []⟩
        else some ⟨st, [], []⟩
      else if item.type == "weapon" then
        some ⟨st,
              [(Dest.requester, OutMsg.weapon_ready
                  (s!"You ready your {item.name}. Click on a player to attack!")
                  item.itemId (jsOrQ item.stats.attack 5))], []⟩
      else if item.type == "armor" then
        let players' :=
          updateA st.players playerId
            (fun q => { q with inventory := q.inventory.eraseIdx i })
        some ⟨{ st with players := players' },
              [(Dest.requester, OutMsg.item_used
                  (s!"You equipped your {item.name}!") none "equip" none)], []⟩
      else
        let players' :=
          updateA st.players playerId
            (fun q => { q with inventory := q.inventory.eraseIdx i })
        some ⟨{ st with players := players' },
              [(Dest.requester, OutMsg.item_used
                  (s!"You used {item.name}!") none "generic" none)], []⟩

/-- `attack_player` handler, lines 423-511.  `consumeWeapon` is the source's
hard-coded `false` (line 477). -/
def handleAttack (st : ServerState) (playerId targetPlayerId weaponId : String)
    (damageField : Option ℚ) : Option HandleResult :=
  let damage := jsOrQ damageField 5
  match lookupA st.players targetPlayerId with
  | none => some ⟨st, [(Dest.requester, OutMsg.attack_failed "Target player not found!")], []⟩
  | some target =>
    match lookupA st.players playerId with
    | none => none
    | some actor =>
      match findWithIdxP (fun it => it.itemId == weaponId && it.type == "weapon")
          actor.inventory with
      | none =>
        some ⟨st, [(Dest.requester,
                    OutMsg.attack_failed "Weapon not found in your inventory!")], []⟩
      | some (weaponIndex, weapon) =>
        if combatInRange actor.position target.position then
          let newHP := max 0 (target.hp - damage)
          let players' := updateA st.players targetPlayerId
            (fun q => { q with hp := max 0 (q.hp - damage) })
          let baseSent : List Sent :=
            [(Dest.requester, OutMsg.attack_success
                (s!"You hit {target.name} for {damage} damage!") target.name damage)]
          let targetSent : List Sent :=
            if st.clientSessions.any (fun cp => cp.2 == targetPlayerId) then
              [(Dest.toClient targetPlayerId, OutMsg.attacked
                  (s!"You were attacked by {actor.name} for {damage} damage!")
                  actor.name damage newHP)]
            else []
          let consumeWeapon := false
          if consumeWeapon then
            let players'' :=
              updateA players' playerId
                (fun q => { q with inventory := q.inventory.eraseIdx weaponIndex })
            some ⟨{ st with players := players'' },
                  baseSent ++ targetSent ++
                    [(Dest.requester, OutMsg.item_used
                        (s!"Your {weapon.name} broke after use!") none "weapon_consumed" none)],
                  []⟩
          else
            some ⟨{ st with players := players' }, baseSent ++ targetSent, []⟩
        else
          some ⟨st, [(Dest.requester,
                      OutMsg.attack_failed "Target is too far away to attack!")], []⟩

/-- `heal_player` handler, lines 513-589. -/
def handleHeal (st : ServerState) (playerId healTargetId healItemId : String)
    (healAmountField : Option ℚ) : Option HandleResult :=
  let healAmount := jsOrQ healAmountField 20
  match lookupA st.players healTargetId with
  | none => some ⟨st, [(Dest.requester, OutMsg.heal_failed "Target player not found!")], []⟩
  | some target =>
    match lookupA st.players playerId with
    | none => none
    | some actor =>
      match findWithIdxP (fun it => it.itemId == healItemId && it.type == "consumable")
          actor.inventory with
      | none =>
        some ⟨st, [(Dest.requester,
                    OutMsg.heal_failed "Healing item not found in your inventory!")], []⟩
      | some (healItemIndex, healItem) =>
        if combatInRange actor.position target.position then
          let actualHealAmount := jsOrQ healItem.stats.heal healAmount
          let newHP := min 100 (target.hp + actualHealAmount)
          let players1 := updateA st.players healTargetId
            (fun q => { q with hp := min 100 (q.hp + actualHealAmount) })
          let players2 := updateA players1 playerId
            (fun q => { q with inventory := q.inventory.eraseIdx healItemIndex })
          let baseSent : List Sent :=
            [(Dest.requester, OutMsg.heal_success
                (s!"You healed {target.name} for {actualHealAmount} health!")
                target.name actualHealAmount)]
          let targetSent : List Sent :=
            if st.clientSessions.any (fun cp => cp.2 == healTargetId) then
              [(Dest.toClient healTargetId, OutMsg.healed
                  (s!"You were healed by {actor.name} for {actualHealAmount} health!")
                  actor.name actualHealAmount newHP)]
            else []
          some ⟨{ st with players := players2 }, baseSent ++ targetSent, []⟩
        else
          some ⟨st, [(Dest.requester,
                      OutMsg.heal_failed "Target is too far away to heal!")], []⟩

/-- `drop_item` handler, lines 591-622. -/
def handleDrop (st : ServerState) (playerId itemId freshItemId : String) :
    Option HandleResult :=
  match lookupA st.players playerId with
  | none => none
  | some p =>
    match findWithIdxP (fun it => it.itemId == itemId) p.inventory with
    | none => some ⟨st, [], []⟩
    | some (i, droppedItem) =>
      let newWorldItem := { droppedItem with
        itemId := freshItemId,
        position := p.position,
        collectionTime := some 1000,
        beingCollected := false,
        collectorId := none }
      let players' := updateA st.players playerId
        (fun q => { q with inventory := q.inventory.eraseIdx i })
      some ⟨{ st with
              players := players',
              worldItems := st.worldItems ++ [newWorldItem] },
            [(Dest.requester, OutMsg.item_dropped
                (s!"You dropped {droppedItem.name}.") droppedItem.name)], []⟩

/-- The `switch (data.type)` body of the message handler (lines 241-651),
dispatching on the message body with the session's player identity. -/
def handleBody (st : ServerState) (playerId : String) : MsgBody → Option HandleResult
  | .update_position pos =>
    match lookupA st.players playerId with
    | none => none
    | some _ =>
      let players' := updateA st.players playerId (fun q => { q with position := pos })
      some ⟨{ st with players := players' }, [], []⟩
  | .chat_message msg =>
    match lookupA st.players playerId with
    | none => none
    | some _ =>
      let players' := updateA st.players playerId (fun q => { q with lastMessage := msg })
      some ⟨{ st with players := players' }, [], []⟩
  | .pickup_item itemId => handlePickup st playerId itemId
  | .add_to_inventory => some ⟨st, [], []⟩
  | .cancel_collection itemId => handleCancel st playerId itemId
  | .use_item itemId => handleUseItem st playerId itemId
  | .attack_player t w d => handleAttack st playerId t w d
  | .heal_player t i h => handleHeal st playerId t i h
  | .drop_item i fresh => handleDrop st playerId i fresh
  | .view_profile profilePlayerId =>
    match lookupA st.players profilePlayerId with
    | none => some ⟨st, [], []⟩
    | some prof =>
      some ⟨st, [(Dest.requester,
                  OutMsg.profile_data prof (profilePlayerId == playerId))], []⟩
  | .update_profile nameField =>
    if jsTruthyStr nameField then
      match lookupA st.players playerId with
      | none => none
      | some _ =>
        let players' := updateA st.players playerId
          (fun q => { q with name := sanitizeName (nameField.getD "") })
        some ⟨{ st with players := players' }, [], []⟩
    else some ⟨st, [], []⟩
  | .update_avatar avatar =>
    if st.avatars.contains avatar then
      match lookupA st.players playerId with
      | none => none
      | some _ =>
        let players' := updateA st.players playerId (fun q => { q with avatar := avatar })
        some ⟨{ st with players := players' }, [], []⟩
    else some ⟨st, [], []⟩

/-- The full `ws.on("message")` handler (lines 227-666): the authorization
gate of lines 234-239 (drop with no reply at all on failure), then the switch
body, then the unconditional `world_update` broadcast of lines 653-662.
A `none` from the body models a thrown-and-caught exception: the broadcast is
skipped and no mutation has happened. -/
def handleMessage (st : ServerState) (clientId playerId : String) (m : InMsg) :
    HandleResult :=
  let targetPlayerId := jsOrStr m.playerId playerId
  if ¬ isViewProfile m.body ∧ targetPlayerId ≠ playerId ∧
      ¬ isAuthorizedForPlayer st clientId targetPlayerId then
    ⟨st, [], []⟩
  else
    match handleBody st playerId m.body with
    | none => ⟨st, [], []⟩
    | some r =>
      ⟨r.state,
       r.sent ++ [(Dest.broadcast, OutMsg.world_update r.state.players r.state.worldItems)],
       r.timers⟩

/-- The `ws.on("close")` handler (lines 668-683): remove the session and the
player, broadcast `player_left`.  Note it touches no world item. -/
def handleClose (st : ServerState) (clientId playerId : String) :
    ServerState × List Sent :=
  ({ st with
      clientSessions := st.clientSessions.filter (fun cp => cp.1 != clientId),
      players := st.players.filter (fun e => e.1 != playerId) },
   [(Dest.broadcast, OutMsg.player_left playerId)])

/-! ### Helper lemmas about the store primitives -/

theorem lookupA_updateA_self {α : Type} (l : List (String × α)) (k : String) (f : α → α) :
    lookupA (updateA l k f) k = (lookupA l k).map f := by
  induction l with
  | nil => rfl
  | cons hd tl ih =>
    obtain ⟨k', v⟩ := hd
    by_cases h : k' = k
    · simp [updateA, lookupA, h]
    · simp [updateA, lookupA, h, ih]

theorem lookupA_mem {α : Type} {l : List (String × α)} {k : String} {v : α}
    (h : lookupA l k = some v) : (k, v) ∈ l := by
  induction l with
  | nil => simp [lookupA] at h
  | cons hd tl ih =>
    obtain ⟨k', w⟩ := hd
    rw [lookupA] at h
    by_cases hk : k' = k
    · rw [if_pos hk] at h
      obtain rfl : w = v := Option.some.inj h
      subst hk
      exact List.mem_cons_self _ _
    · rw [if_neg hk] at h
      exact List.mem_cons_of_mem _ (ih h)

theorem mem_updateA {α : Type} {l : List (String × α)} {k : String} {f : α → α}
    {e : String × α} (he : e ∈ updateA l k f) :
    e ∈ l ∨ ∃ kv ∈ l, e = (kv.1, f kv.2) := by
  induction l with
  | nil => simp [updateA] at he
  | cons hd tl ih =>
    obtain ⟨k', v⟩ := hd
    rw [updateA] at he
    by_cases hk : k' = k
    · rw [if_pos hk] at he
      rcases List.mem_cons.mp he with h1 | h1
      · exact Or.inr ⟨(k', v), List.mem_cons_self _ _, h1⟩
      · exact Or.inl (List.mem_cons_of_mem _ h1)
    · rw [if_neg hk] at he
      rcases List.mem_cons.mp he with h1 | h1
      · exact Or.inl (h1 ▸ List.mem_cons_self _ _)
      · rcases ih h1 with h2 | ⟨kv, hkv, h3⟩
        · exact Or.inl (List.mem_cons_of_mem _ h2)
        · exact Or.inr ⟨kv, List.mem_cons_of_mem _ hkv, h3⟩

theorem findWithIdxP_mem {α : Type} {p : α → Bool} {l : List α} {i : ℕ} {x : α}
    (h : findWithIdxP p l = some (i, x)) : x ∈ l := by
  induction l generalizing i with
  | nil => simp [findWithIdxP] at h
  | cons hd tl ih =>
    rw [findWithIdxP] at h
    by_cases hp : p hd
    · rw [if_pos hp] at h
      simp only [Option.some.injEq, Prod.mk.injEq] at h
      obtain ⟨-, rfl⟩ := h
      exact List.mem_cons_self _ _
    · rw [if_neg hp] at h
      cases hf : findWithIdxP p tl with
      | none => rw [hf] at h; simp at h
      | some r =>
        obtain ⟨j, y⟩ := r
        rw [hf] at h
        simp only [Option.map_some', Option.some.injEq, Prod.mk.injEq] at h
        obtain ⟨-, rfl⟩ := h
        exact List.mem_cons_of_mem _ (ih hf)

/-! ### Invariants used by the health-bound claim -/

/-- Every player in the store has health inside `[0, 100]`. -/
def hpInv (l : List (String × Player)) : Prop :=
  ∀ e ∈ l, 0 ≤ e.2.hp ∧ e.2.hp ≤ 100

/-- The optional number, when present, is nonnegative. -/
def nonnegOpt : Option ℚ → Prop
  | none => True
  | some v => 0 ≤ v

instance : ∀ x, Decidable (nonnegOpt x)
  | none => .isTrue trivial
  | some v => inferInstanceAs (Decidable (0 ≤ v))

/-- Every item in every inventory has a nonnegative `stats.heal` when present
(true of every item the catalog can produce: the only heal stat is `20`). -/
def invHealInv (l : List (String × Player)) : Prop :=
  ∀ e ∈ l, ∀ it ∈ e.2.inventory, nonnegOpt it.stats.heal

/-- The client-supplied amount fields of the message are nonnegative when
present. -/
def msgAmountsNonneg : MsgBody → Prop
  | .attack_player _ _ d => nonnegOpt d
  | .heal_player _ _ h => nonnegOpt h
  | _ => True

theorem jsOrQ_nonneg {x : Option ℚ} {d : ℚ} (hx : nonnegOpt x) (hd : 0 ≤ d) :
    0 ≤ jsOrQ x d := by
  cases x with
  | none => exact hd
  | some v =>
    by_cases h : v = 0
    · simp [jsOrQ, h]; exact hd
    · simp [jsOrQ, h]; exact hx

theorem hpInv_updateA {l : List (String × Player)} {k : String} {f : Player → Player}
    (hl : hpInv l)
    (hf : ∀ q : Player, 0 ≤ q.hp → q.hp ≤ 100 → 0 ≤ (f q).hp ∧ (f q).hp ≤ 100) :
    hpInv (updateA l k f) := by
  intro e he
  rcases mem_updateA he with h1 | ⟨kv, hkv, rfl⟩
  · exact hl e h1
  · exact hf kv.2 (hl kv hkv).1 (hl kv hkv).2

theorem hpInv_updateA_keep {l : List (String × Player)} {k : String} {f : Player → Player}
    (hl : hpInv l) (hf : ∀ q : Player, (f q).hp = q.hp) :
    hpInv (updateA l k f) :=
  hpInv_updateA hl (fun q h0 h1 => by rw [hf]; exact ⟨h0, h1⟩)


/-! ### Which handlers touch which stores, and health-bound preservation -/

theorem handlePickup_players {st : ServerState} {pid iid : String} {r : HandleResult}
    (h : handlePickup st pid iid = some r) : r.state.players = st.players := by
  unfold handlePickup at h
  cases hf : findWithIdxP (fun it => it.itemId == iid) st.worldItems with
  | none =>
    simp only [hf] at h
    obtain rfl := Option.some.inj h
    rfl
  | some v =>
    obtain ⟨i, item⟩ := v
    simp only [hf] at h
    cases ha : lookupA st.players pid with
    | none =>
      simp only [ha] at h
      exact Option.noConfusion h
    | some actor =>
      simp only [ha] at h
      by_cases hr : pickupInRange actor.position item.position = true
      · rw [if_pos hr] at h
        cases hb : item.beingCollected with
        | false =>
          simp only [hb, Bool.not_false, if_true] at h
          obtain rfl := Option.some.inj h
          rfl
        | true =>
          simp only [hb, Bool.not_true, Bool.false_eq_true, if_false] at h
          by_cases hc : item.collectorId ≠ some pid
          · rw [if_pos hc] at h
            obtain rfl := Option.some.inj h
            rfl
          · rw [if_neg hc] at h
            obtain rfl := Option.some.inj h
            rfl
      · rw [if_neg hr] at h
        obtain rfl := Option.some.inj h
        rfl

theorem handleCancel_players {st : ServerState} {pid iid : String} {r : HandleResult}
    (h : handleCancel st pid iid = some r) : r.state.players = st.players := by
  unfold handleCancel at h
  cases hf : findWithIdxP (fun it => it.itemId == iid && it.collectorId == some pid)
      st.worldItems with
  | none =>
    simp only [hf] at h
    obtain rfl := Option.some.inj h
    rfl
  | some v =>
    obtain ⟨i, item⟩ := v
    simp only [hf] at h
    obtain rfl := Option.some.inj h
    rfl

theorem handleUseItem_hpInv {st : ServerState} {pid iid : String} {r : HandleResult}
    (h1 : hpInv st.players) (h2 : invHealInv st.players)
    (h : handleUseItem st pid iid = some r) : hpInv r.state.players := by
  unfold handleUseItem at h
  cases ha : lookupA st.players pid with
  | none =>
    simp only [ha] at h
    exact Option.noConfusion h
  | some p =>
    simp only [ha] at h
    cases hf : findWithIdxP (fun it => it.itemId == iid) p.inventory with
    | none =>
      simp only [hf] at h
      obtain rfl := Option.some.inj h
      exact h1
    | some v =>
      obtain ⟨i, item⟩ := v
      simp only [hf] at h
      have hhv : (0 : ℚ) ≤ jsOrQ item.stats.heal 0 := by
        apply jsOrQ_nonneg _ le_rfl
        exact h2 (pid, p) (lookupA_mem ha) item (findWithIdxP_mem hf)
      by_cases hcons : (item.type == "consumable") = true
      · rw [if_pos hcons] at h
        by_cases ht : jsTruthyQ item.stats.heal = true
        · rw [if_pos ht] at h
          obtain rfl := Option.some.inj h
          exact hpInv_updateA h1 (fun q h0 h100 =>
            ⟨le_min (by norm_num) (by linarith), min_le_left _ _⟩)
        · rw [if_neg ht] at h
          obtain rfl := Option.some.inj h
          exact h1
      · rw [if_neg hcons] at h
        by_cases hw : (item.type == "weapon") = true
        · rw [if_pos hw] at h
          obtain rfl := Option.some.inj h
          exact h1
        · rw [if_neg hw] at h
          by_cases harm : (item.type == "armor") = true
          · rw [if_pos harm] at h
            obtain rfl := Option.some.inj h
            exact hpInv_updateA_keep h1 (fun q => rfl)
          · rw [if_neg harm] at h
            obtain rfl := Option.some.inj h
            exact hpInv_updateA_keep h1 (fun q => rfl)

theorem handleAttack_hpInv {st : ServerState} {pid t w : String} {d : Option ℚ}
    {r : HandleResult}
    (h1 : hpInv st.players) (hd : nonnegOpt d)
    (h : handleAttack st pid t w d = some r) : hpInv r.state.players := by
  have hdam : (0 : ℚ) ≤ jsOrQ d 5 := jsOrQ_nonneg hd (by norm_num)
  unfold handleAttack at h
  cases ht : lookupA st.players t with
  | none =>
    simp only [ht] at h
    obtain rfl := Option.some.inj h
    exact h1
  | some target =>
    simp only [ht] at h
    cases ha : lookupA st.players pid with
    | none =>
      simp only [ha] at h
      exact Option.noConfusion h
    | some actor =>
      simp only [ha] at h
      cases hw : findWithIdxP (fun it => it.itemId == w && it.type == "weapon")
          actor.inventory with
      | none =>
        simp only [hw] at h
        obtain rfl := Option.some.inj h
        exact h1
      | some v =>
        obtain ⟨wi, weapon⟩ := v
        simp only [hw] at h
        by_cases hr : combatInRange actor.position target.position = true
        · rw [if_pos hr] at h
          simp only [Bool.false_eq_true, if_false] at h
          obtain rfl := Option.some.inj h
          exact hpInv_updateA h1 (fun q h0 h100 =>
            ⟨le_max_left _ _, max_le (by norm_num) (by linarith)⟩)
        · rw [if_neg hr] at h
          obtain rfl := Option.some.inj h
          exact h1

theorem handleHeal_hpInv {st : ServerState} {pid t iid : String} {hamt : Option ℚ}
    {r : HandleResult}
    (h1 : hpInv st.players) (h2 : invHealInv st.players) (hh : nonnegOpt hamt)
    (h : handleHeal st pid t iid hamt = some r) : hpInv r.state.players := by
  have hbase : (0 : ℚ) ≤ jsOrQ hamt 20 := jsOrQ_nonneg hh (by norm_num)
  unfold handleHeal at h
  cases htg : lookupA st.players t with
  | none =>
    simp only [htg] at h
    obtain rfl := Option.some.inj h
    exact h1
  | some target =>
    simp only [htg] at h
    cases hac : lookupA st.players pid with
    | none =>
      simp only [hac] at h
      exact Option.noConfusion h
    | some actor =>
      simp only [hac] at h
      cases hf : findWithIdxP (fun it => it.itemId == iid && it.type == "consumable")
          actor.inventory with
      | none =>
        simp only [hf] at h
        obtain rfl := Option.some.inj h
        exact h1
      | some v =>
        obtain ⟨hi, healItem⟩ := v
        simp only [hf] at h
        by_cases hr : combatInRange actor.position target.position = true
        · rw [if_pos hr] at h
          obtain rfl := Option.some.inj h
          have hha : (0 : ℚ) ≤ jsOrQ healItem.stats.heal (jsOrQ hamt 20) := by
            apply jsOrQ_nonneg _ hbase
            exact h2 (pid, actor) (lookupA_mem hac) healItem (findWithIdxP_mem hf)
          exact hpInv_updateA_keep
            (hpInv_updateA h1 (fun q h0 h100 =>
              ⟨le_min (by norm_num) (by linarith), min_le_left _ _⟩))
            (fun q => rfl)
        · rw [if_neg hr] at h
          obtain rfl := Option.some.inj h
          exact h1

theorem handleDrop_hpInv {st : ServerState} {pid iid fresh : String} {r : HandleResult}
    (h1 : hpInv st.players)
    (h : handleDrop st pid iid fresh = some r) : hpInv r.state.players := by
  unfold handleDrop at h
  cases ha : lookupA st.players pid with
  | none =>
    simp only [ha] at h
    exact Option.noConfusion h
  | some p =>
    simp only [ha] at h
    cases hf : findWithIdxP (fun it => it.itemId == iid) p.inventory with
    | none =>
      simp only [hf] at h
      obtain rfl := Option.some.inj h
      exact h1
    | some v =>
      obtain ⟨i, dropped⟩ := v
      simp only [hf] at h
      obtain rfl := Option.some.inj h
      exact hpInv_updateA_keep h1 (fun q => rfl)

theorem handleBody_hpInv {st : ServerState} {pid : String} {b : MsgBody} {r : HandleResult}
    (h1 : hpInv st.players) (h2 : invHealInv st.players) (h3 : msgAmountsNonneg b)
    (h : handleBody st pid b = some r) : hpInv r.state.players := by
  cases b with
  | update_position pos =>
    simp only [handleBody] at h
    cases ha : lookupA st.players pid with
    | none =>
      simp only [ha] at h
      exact Option.noConfusion h
    | some p =>
      simp only [ha] at h
      obtain rfl := Option.some.inj h
      exact hpInv_updateA_keep h1 (fun q => rfl)
  | chat_message msg =>
    simp only [handleBody] at h
    cases ha : lookupA st.players pid with
    | none =>
      simp only [ha] at h
      exact Option.noConfusion h
    | some p =>
      simp only [ha] at h
      obtain rfl := Option.some.inj h
      exact hpInv_updateA_keep h1 (fun q => rfl)
  | pickup_item itemId =>
    simp only [handleBody] at h
    exact handlePickup_players h ▸ h1
  | add_to_inventory =>
    simp only [handleBody] at h
    obtain rfl := Option.some.inj h
    exact h1
  | cancel_collection itemId =>
    simp only [handleBody] at h
    exact handleCancel_players h ▸ h1
  | use_item itemId =>
    simp only [handleBody] at h
    exact handleUseItem_hpInv h1 h2 h
  | attack_player t w d =>
    simp only [handleBody] at h
    exact handleAttack_hpInv h1 h3 h
  | heal_player t iid hamt =>
    simp only [handleBody] at h
    exact handleHeal_hpInv h1 h2 h3 h
  | drop_item iid fresh =>
    simp only [handleBody] at h
    exact handleDrop_hpInv h1 h
  | view_profile ppid =>
    simp only [handleBody] at h
    cases hp : lookupA st.players ppid with
    | none =>
      simp only [hp] at h
      obtain rfl := Option.some.inj h
      exact h1
    | some prof =>
      simp only [hp] at h
      obtain rfl := Option.some.inj h
      exact h1
  | update_profile nameField =>
    simp only [handleBody] at h
    by_cases hn : jsTruthyStr nameField = true
    · rw [if_pos hn] at h
      cases ha : lookupA st.players pid with
      | none =>
        simp only [ha] at h
        exact Option.noConfusion h
      | some p =>
        simp only [ha] at h
        obtain rfl := Option.some.inj h
        exact hpInv_updateA_keep h1 (fun q => rfl)
    · rw [if_neg hn] at h
      obtain rfl := Option.some.inj h
      exact h1
  | update_avatar avatar =>
    simp only [handleBody] at h
    by_cases hav : st.avatars.contains avatar = true
    · rw [if_pos hav] at h
      cases ha : lookupA st.players pid with
      | none =>
        simp only [ha] at h
        exact Option.noConfusion h
      | some p =>
        simp only [ha] at h
        obtain rfl := Option.some.inj h
        exact hpInv_updateA_keep h1 (fun q => rfl)
    · rw [if_neg hav] at h
      obtain rfl := Option.some.inj h
      exact h1

/-! ### Concrete fixtures for witnesses and counterexamples -/

def pos0 : Position := ⟨0, 0⟩

/-- An `iron-sword` world/inventory item instance (template of
`src/models/items.js` lines 35-44). -/
def ironSword (iid : String) (pos : Position) : Item :=
  ⟨iid, "iron-sword", "Iron Sword", "weapon", "common", "A basic iron sword",
   "/images/items/iron-sword.png", ⟨some 5, none, none, none⟩, pos, some 5000, false, none⟩

/-- A `health-potion` item instance (template lines 67-75). -/
def healthPotion (iid : String) (pos : Position) : Item :=
  ⟨iid, "health-potion", "Health Potion", "consumable", "common",
   "Restores 20 health points", "/images/items/health-potion.png",
   ⟨none, none, some 20, none⟩, pos, some 2000, false, none⟩

/-- A `gold-coin` item instance (template lines 78-86). -/
def goldCoin (iid : String) (pos : Position) : Item :=
  ⟨iid, "gold-coin", "Gold Coin", "collectible", "common", "A shiny gold coin",
   "/images/items/gold-coin.png", ⟨none, none, none, some 1⟩, pos, some 1000, false, none⟩

/-- A player record in the shape the connection handler seeds. -/
def mkPlayer (pid nm : String) (pos : Position) (hp : ℚ) (inv : List Item) : Player :=
  ⟨pid, nm, pos, "/images/avatars/1.png", hp, 1, 0, 10, inv, ⟨5, 5, 5, 5⟩, ""⟩

/-- Two co-located connected players; `P1` wields an iron sword. -/
def stC1 : ServerState :=
  ⟨[("P1", mkPlayer "P1" "Alice" pos0 100 [ironSword "w1" pos0]),
    ("P2", mkPlayer "P2" "Bob" pos0 100 [])],
   [], [("c1", "P1"), ("c2", "P2")], []⟩

/-- C1, counterexample: the claim asserts hp stays within `[0, 100]` for
arbitrary client-supplied damage values including negative ones, but
`attack_player` only clamps from below (`Math.max(0, hp - damage)`,
line 449): a damage of `-50` against a full-health target leaves the target
at 150 hp, outside the claimed bound. -/
theorem C1_counterexample :
    (lookupA (handleMessage stC1 "c1" "P1"
        ⟨none, .attack_player "P2" "w1" (some (-50))⟩).state.players "P2").map Player.hp
      = some 150 ∧ ¬ ((150 : ℚ) ≤ 100) := by
  have hcr : combatInRange ⟨0, 0⟩ ⟨0, 0⟩ = true := by norm_num [combatInRange, distSq]
  simp [handleMessage, handleBody, handleAttack, lookupA, updateA, findWithIdxP,
    jsOrQ, jsOrStr, isViewProfile, isAuthorizedForPlayer,
    stC1, mkPlayer, ironSword, pos0, hcr]
  norm_num

/-- C1, amended: if every stored player's hp lies in `[0, 100]`, every
inventory heal stat is nonnegative when present (true of everything the item
catalog can mint), and the message's client-supplied damage/heal fields are
nonnegative when present, then after any message every player's hp is again
in `[0, 100]`: `attack_player` clamps at 0 (line 449), `heal_player` at 100
(line 540), `use_item` heal at 100 (line 378).  Without the nonnegativity
restriction the bound fails (see the counterexample). -/
theorem C1_hp_bounds_amended (st : ServerState) (clientId playerId : String) (m : InMsg)
    (h1 : hpInv st.players) (h2 : invHealInv st.players) (h3 : msgAmountsNonneg m.body) :
    hpInv (handleMessage st clientId playerId m).state.players := by
  simp only [handleMessage]
  split
  · exact h1
  · cases hb : handleBody st playerId m.body with
    | none => simp only [hb]; exact h1
    | some r => simp only [hb]; exact handleBody_hpInv h1 h2 h3 hb

/-- C1 witness: the amended theorem applied to a concrete attack. -/
theorem C1_witness :
    hpInv (handleMessage stC1 "c1" "P1"
        ⟨none, .attack_player "P2" "w1" (some 3)⟩).state.players :=
  C1_hp_bounds_amended stC1 "c1" "P1" ⟨none, .attack_player "P2" "w1" (some 3)⟩
    (by norm_num [hpInv, stC1, mkPlayer, ironSword, pos0])
    (by norm_num [invHealInv, stC1, mkPlayer, ironSword, pos0, nonnegOpt])
    (by norm_num [msgAmountsNonneg, nonnegOpt])

/-- A pickup request for an item already being collected by a different
player (with the requester in range) yields `collection_error` and leaves the
whole state unchanged (lines 324-330 and the unconditional broadcast). -/
theorem pickup_claimed_by_other_rejected (st : ServerState)
    (clientId playerId itemId : String)
    (i : ℕ) (item : Item) (actor : Player) (q : String)
    (hfind : findWithIdxP (fun it => it.itemId == itemId) st.worldItems = some (i, item))
    (hactor : lookupA st.players playerId = some actor)
    (hrange : pickupInRange actor.position item.position = true)
    (hclaimed : item.beingCollected = true)
    (hholder : item.collectorId = some q) (hne : q ≠ playerId) :
    handleMessage st clientId playerId ⟨none, .pickup_item itemId⟩ =
      ⟨st, [(Dest.requester,
             OutMsg.collection_error "This item is being collected by another player"),
            (Dest.broadcast, OutMsg.world_update st.players st.worldItems)], []⟩ := by
  simp [handleMessage, handleBody, handlePickup, jsOrStr, isViewProfile,
    hfind, hactor, hrange, hclaimed, hholder, hne]

/-- C2: in the model a world item's claim is a single `collectorId` field, so
at most one player holds it at any instant by construction; behaviourally,
when a pickup request arrives for an item already being collected by a
different player (and the requester is in pickup range), the requester gets
`collection_error` and the whole state — in particular the item's
`beingCollected`/`collectorId` — is unchanged (lines 324-330). -/
theorem C2_claim_exclusivity (st : ServerState) (clientId playerId itemId : String)
    (i : ℕ) (item : Item) (actor : Player) (q : String)
    (hfind : findWithIdxP (fun it => it.itemId == itemId) st.worldItems = some (i, item))
    (hactor : lookupA st.players playerId = some actor)
    (hrange : pickupInRange actor.position item.position = true)
    (hclaimed : item.beingCollected = true)
    (hholder : item.collectorId = some q) (hne : q ≠ playerId) :
    handleMessage st clientId playerId ⟨none, .pickup_item itemId⟩ =
      ⟨st, [(Dest.requester,
             OutMsg.collection_error "This item is being collected by another player"),
            (Dest.broadcast, OutMsg.world_update st.players st.worldItems)], []⟩ :=
  pickup_claimed_by_other_rejected st clientId playerId itemId i item actor q
    hfind hactor hrange hclaimed hholder hne

/-- Two connected players and a world item already claimed by `P2`. -/
def stC2 : ServerState :=
  ⟨[("P1", mkPlayer "P1" "Alice" pos0 100 []),
    ("P2", mkPlayer "P2" "Bob" pos0 100 [])],
   [{ ironSword "itm" pos0 with beingCollected := true, collectorId := some "P2" }],
   [("c1", "P1"), ("c2", "P2")], []⟩

/-- C2 witness: the exclusivity theorem at a concrete contested pickup. -/
theorem C2_witness :
    handleMessage stC2 "c1" "P1" ⟨none, .pickup_item "itm"⟩ =
      ⟨stC2, [(Dest.requester,
               OutMsg.collection_error "This item is being collected by another player"),
              (Dest.broadcast, OutMsg.world_update stC2.players stC2.worldItems)], []⟩ :=
  C2_claim_exclusivity stC2 "c1" "P1" "itm" 0
    { ironSword "itm" pos0 with beingCollected := true, collectorId := some "P2" }
    (mkPlayer "P1" "Alice" pos0 100 []) "P2"
    (by simp [findWithIdxP, stC2, ironSword, pos0])
    (by simp [lookupA, stC2])
    (by norm_num [pickupInRange, distSq, mkPlayer, ironSword, pos0])
    rfl rfl (by simp)

/-- Two connected players; `P1` holds an active claim on the world item. -/
def stC3 : ServerState :=
  ⟨[("P1", mkPlayer "P1" "Alice" pos0 100 []),
    ("P2", mkPlayer "P2" "Bob" pos0 100 [])],
   [{ ironSword "itm" pos0 with beingCollected := true, collectorId := some "P1" }],
   [("c1", "P1"), ("c2", "P2")], []⟩

/-- The server state after the claim holder's connection closes. -/
def stC3closed : ServerState := (handleClose stC3 "c1" "P1").1

/-- C3 (code bug): the close handler (lines 668-683) deletes the session and
the player record but never touches `worldItems`, so the claim survives the
holder's disconnection: the item still carries `beingCollected = true`,
`collectorId = "P1"`, and another player's pickup attempt is rejected with
`collection_error` instead of the claimed immediate pickupability. -/
theorem C3_disconnect_leaves_claim :
    (stC3closed.worldItems.map
        (fun it => (it.itemId, it.beingCollected, it.collectorId)))
      = [("itm", true, some "P1")] ∧
    lookupA stC3closed.players "P1" = none ∧
    handleMessage stC3closed "c2" "P2" ⟨none, .pickup_item "itm"⟩ =
      ⟨stC3closed,
       [(Dest.requester,
         OutMsg.collection_error "This item is being collected by another player"),
        (Dest.broadcast,
         OutMsg.world_update stC3closed.players stC3closed.worldItems)], []⟩ := by
  have hr : pickupInRange ⟨0, 0⟩ ⟨0, 0⟩ = true := by norm_num [pickupInRange, distSq]
  refine ⟨by simp [stC3closed, handleClose, stC3, ironSword, mkPlayer, pos0], ?_, ?_⟩
  · simp [stC3closed, handleClose, stC3, lookupA, mkPlayer, pos0]
  · exact pickup_claimed_by_other_rejected stC3closed "c2" "P2" "itm" 0
      { ironSword "itm" pos0 with beingCollected := true, collectorId := some "P1" }
      (mkPlayer "P2" "Bob" pos0 100 []) "P1"
      (by simp [stC3closed, handleClose, stC3, findWithIdxP, ironSword, pos0])
      (by simp [stC3closed, handleClose, stC3, lookupA, mkPlayer])
      (by norm_num [pickupInRange, distSq, mkPlayer, ironSword, pos0])
      rfl rfl (by simp)

/-- One connected player and one unclaimed world item at the player's feet. -/
def stC4 : ServerState :=
  ⟨[("P1", mkPlayer "P1" "Alice" pos0 100 [])],
   [ironSword "itm" pos0],
   [("c1", "P1")], []⟩

/-- State and outputs after `P1` starts collecting the item. -/
def c4AfterPickup : HandleResult :=
  handleMessage stC4 "c1" "P1" ⟨none, .pickup_item "itm"⟩

/-- … then cancels the collection before the timer fires … -/
def c4AfterCancel : HandleResult :=
  handleMessage c4AfterPickup.state "c1" "P1" ⟨none, .cancel_collection "itm"⟩

/-- … then picks the same item up again. -/
def c4AfterRepickup : HandleResult :=
  handleMessage c4AfterCancel.state "c1" "P1" ⟨none, .pickup_item "itm"⟩

/-- C4, counterexample: the completion callback only re-checks
`collectorId === playerId` (line 290), which does not distinguish the claim
instance.  After pickup (scheduling a timer capturing `("itm", "P1")`),
cancel, and re-pickup by the same player, firing the FIRST, superseded timer
is not a no-op: it removes the item from the world and grants it to the
inventory — a completion driven by a timer whose claim was canceled before
it fired. -/
theorem C4_counterexample :
    c4AfterPickup.timers = [⟨"itm", "P1", 5000⟩] ∧
    (c4AfterCancel.state.worldItems.map
        (fun it => (it.beingCollected, it.collectorId))) = [(false, none)] ∧
    (c4AfterRepickup.state.worldItems.map
        (fun it => (it.beingCollected, it.collectorId))) = [(true, some "P1")] ∧
    (collectionTimerFire c4AfterRepickup.state "itm" "P1").1.worldItems = [] ∧
    ((lookupA (collectionTimerFire c4AfterRepickup.state "itm" "P1").1.players
        "P1").map (fun p => p.inventory.map Item.itemId)) = some ["itm"] := by
  have hr : pickupInRange ⟨0, 0⟩ ⟨0, 0⟩ = true := by norm_num [pickupInRange, distSq]
  have h1 : c4AfterPickup =
      ⟨⟨[("P1", mkPlayer "P1" "Alice" pos0 100 [])],
        [{ ironSword "itm" pos0 with beingCollected := true, collectorId := some "P1" }],
        [("c1", "P1")], []⟩,
       [(Dest.requester, OutMsg.collection_started "itm" 5000),
        (Dest.broadcast, OutMsg.world_update
          [("P1", mkPlayer "P1" "Alice" pos0 100 [])]
          [{ ironSword "itm" pos0 with beingCollected := true, collectorId := some "P1" }])],
       [⟨"itm", "P1", 5000⟩]⟩ := by
    simp [c4AfterPickup, handleMessage, handleBody, handlePickup, jsOrStr, isViewProfile,
      stC4, mkPlayer, ironSword, pos0, hr, findWithIdxP, lookupA, jsOrQ]
  have h2 : c4AfterCancel.state =
      ⟨[("P1", mkPlayer "P1" "Alice" pos0 100 [])],
       [{ ironSword "itm" pos0 with beingCollected := false, collectorId := none }],
       [("c1", "P1")], []⟩ := by
    rw [c4AfterCancel, h1]
    simp [handleMessage, handleBody, handleCancel, jsOrStr, isViewProfile,
      mkPlayer, ironSword, pos0, findWithIdxP, lookupA]
  have h3 : c4AfterRepickup.state =
      ⟨[("P1", mkPlayer "P1" "Alice" pos0 100 [])],
       [{ ironSword "itm" pos0 with beingCollected := true, collectorId := some "P1" }],
       [("c1", "P1")], []⟩ := by
    rw [c4AfterRepickup, h2]
    simp [handleMessage, handleBody, handlePickup, jsOrStr, isViewProfile,
      mkPlayer, ironSword, pos0, hr, findWithIdxP, lookupA, jsOrQ]
  refine ⟨by rw [h1], by rw [h2]; simp [ironSword, pos0], by rw [h3]; simp [ironSword, pos0],
    ?_, ?_⟩
  · rw [h3]
    simp [collectionTimerFire, findWithIdxP, lookupA, mkPlayer, ironSword, pos0,
      jsTruthyQ, jsOrQ, updateA]
  · rw [h3]
    simp [collectionTimerFire, findWithIdxP, lookupA, mkPlayer, ironSword, pos0,
      jsTruthyQ, jsOrQ, updateA]

/-- C4, amended: a completion firing is a no-op — no inventory grant, no
currency grant, no world removal, no message — whenever the item no longer
exists or its current `collectorId` differs from the firing timer's captured
player (the guard of lines 289-290).  This covers a cancel that is not
followed by a re-claim and a re-claim by a *different* holder; it does not
cover a cancel followed by a re-pickup by the same player, where the guard
passes and the superseded timer completes the collection (see the
counterexample). -/
theorem C4_superseded_fire_noop_amended (st : ServerState) (itemId playerId : String)
    (h : ((findWithIdxP (fun it => it.itemId == itemId) st.worldItems).all
        (fun r => r.2.collectorId != some playerId)) = true) :
    collectionTimerFire st itemId playerId = (st, []) := by
  unfold collectionTimerFire
  cases hf : findWithIdxP (fun it => it.itemId == itemId) st.worldItems with
  | none => simp only [hf]
  | some v =>
    obtain ⟨i, it⟩ := v
    rw [hf] at h
    simp only [Option.all_some, bne_iff_ne, ne_eq] at h
    simp only [hf]
    rw [if_neg h]

/-- One world item claimed by `P2`; `P1`'s stale timer must not complete it. -/
def stC4w : ServerState :=
  ⟨[("P1", mkPlayer "P1" "Alice" pos0 100 []),
    ("P2", mkPlayer "P2" "Bob" pos0 100 [])],
   [{ ironSword "itm" pos0 with beingCollected := true, collectorId := some "P2" }],
   [("c1", "P1"), ("c2", "P2")], []⟩

/-- C4 witness: the amended no-op theorem at a concrete reclaimed item. -/
theorem C4_witness : collectionTimerFire stC4w "itm" "P1" = (stC4w, []) :=
  C4_superseded_fire_noop_amended stC4w "itm" "P1"
    (by simp [findWithIdxP, stC4w, ironSword, pos0, Option.all])

/-- One connected player at the origin and an item at distance exactly
`0.001` (the pickup threshold). -/
def stC5 : ServerState :=
  ⟨[("P1", mkPlayer "P1" "Alice" pos0 100 [])],
   [ironSword "itm" ⟨0, 1/1000⟩],
   [("c1", "P1")], []⟩

/-- C5, counterexample: a pickup whose actor-to-item distance equals the
0.001 threshold exactly is REJECTED with a too-far `collection_error`,
because line 267 tests strict `dist < 0.001`; the claim asserts inclusive
acceptance at the threshold for pickup as well. -/
theorem C5_counterexample :
    handleMessage stC5 "c1" "P1" ⟨none, .pickup_item "itm"⟩ =
      ⟨stC5,
       [(Dest.requester, OutMsg.collection_error "Item is too far away to collect"),
        (Dest.broadcast, OutMsg.world_update stC5.players stC5.worldItems)], []⟩ := by
  have hr : pickupInRange ⟨0, 0⟩ ⟨0, (1000 : ℚ)⁻¹⟩ = false := by
    norm_num [pickupInRange, distSq]
  simp [handleMessage, handleBody, handlePickup, jsOrStr, isViewProfile,
    stC5, mkPlayer, ironSword, pos0, findWithIdxP, lookupA, hr]

/-- C5, amended: the combat/heal gate (lines 447, 537) is inclusive — a
distance exactly equal to 0.0002 is accepted — and both gates are symmetric
in their two positions; but the pickup gate (line 267) is strict, so a
distance exactly equal to 0.001 is rejected. -/
theorem C5_threshold_amended (a b : Position) :
    (distSq a b = (1 / 1000 : ℚ) ^ 2 → pickupInRange a b = false) ∧
    (distSq a b = (2 / 10000 : ℚ) ^ 2 → combatInRange a b = true) ∧
    pickupInRange a b = pickupInRange b a ∧
    combatInRange a b = combatInRange b a := by
  have hsym : distSq a b = distSq b a := by unfold distSq; ring
  refine ⟨fun h => ?_, fun h => ?_, ?_, ?_⟩
  · simp [pickupInRange, h]
  · simp [combatInRange, h]
  · simp [pickupInRange, hsym]
  · simp [combatInRange, hsym]

/-- C5 witness: the amended boundary behaviour at concrete positions exactly
on each threshold. -/
theorem C5_witness :
    pickupInRange ⟨0, 0⟩ ⟨0, 1/1000⟩ = false ∧
    combatInRange ⟨0, 0⟩ ⟨0, 2/10000⟩ = true :=
  ⟨(C5_threshold_amended ⟨0, 0⟩ ⟨0, 1/1000⟩).1 (by norm_num [distSq]),
   (C5_threshold_amended ⟨0, 0⟩ ⟨0, 2/10000⟩).2.1 (by norm_num [distSq])⟩

/-- One connected player and a world item whose id is not the requested one. -/
def stC6 : ServerState :=
  ⟨[("P1", mkPlayer "P1" "Alice" pos0 100 [])],
   [ironSword "other" pos0],
   [("c1", "P1")], []⟩

/-- C6, counterexample: a pickup for an unknown itemId sends NO reply of any
kind to the requester — the not-found branch (lines 338-340) only logs — so
the claimed item-not-found error response never happens; the unconditional
`world_update` broadcast of lines 653-662 still goes out to everyone, and no
state is mutated. -/
theorem C6_counterexample :
    handleMessage stC6 "c1" "P1" ⟨none, .pickup_item "nope"⟩ =
      ⟨stC6, [(Dest.broadcast, OutMsg.world_update stC6.players stC6.worldItems)], []⟩ := by
  simp [handleMessage, handleBody, handlePickup, jsOrStr, isViewProfile,
    stC6, findWithIdxP, ironSword, pos0]

/-- C6, amended: when the itemId resolves to no world item, the requester
receives no response at all (the failure is only logged server-side), no
state is mutated, and the only outbound message is the unconditional full
world broadcast. -/
theorem C6_notfound_amended (st : ServerState) (clientId playerId itemId : String)
    (hnf : findWithIdxP (fun it => it.itemId == itemId) st.worldItems = none) :
    handleMessage st clientId playerId ⟨none, .pickup_item itemId⟩ =
      ⟨st, [(Dest.broadcast, OutMsg.world_update st.players st.worldItems)], []⟩ := by
  simp [handleMessage, handleBody, handlePickup, jsOrStr, isViewProfile, hnf]

/-- C6 witness: the amended theorem at a concrete unknown itemId. -/
theorem C6_witness :
    handleMessage stC6 "c1" "P1" ⟨none, .pickup_item "missing"⟩ =
      ⟨stC6, [(Dest.broadcast, OutMsg.world_update stC6.players stC6.worldItems)], []⟩ :=
  C6_notfound_amended stC6 "c1" "P1" "missing"
    (by simp [findWithIdxP, stC6, ironSword, pos0])

/-- C7: any message other than `view_profile` whose `playerId` field resolves
to an identity different from the session's player is dropped by the gate of
lines 234-239: the handler returns before the switch and before the final
broadcast, so no state changes and nothing at all is sent back — no error,
not even the world broadcast. -/
theorem C7_unauthorized_dropped (st : ServerState) (clientId playerId : String)
    (m : InMsg)
    (hsess : lookupA st.clientSessions clientId = some playerId)
    (hview : isViewProfile m.body = false)
    (htarget : jsOrStr m.playerId playerId ≠ playerId) :
    handleMessage st clientId playerId m = ⟨st, [], []⟩ := by
  have hauth : isAuthorizedForPlayer st clientId (jsOrStr m.playerId playerId) = false := by
    simp only [isAuthorizedForPlayer, hsess, beq_eq_false_iff_ne, ne_eq,
      Option.some.injEq]
    exact fun h => htarget h.symm
  simp only [handleMessage]
  rw [if_pos ⟨by simp [hview], htarget, by simp [hauth]⟩]

/-- Two connected players, for the authorization-drop witness. -/
def stC7 : ServerState :=
  ⟨[("P1", mkPlayer "P1" "Alice" pos0 100 []),
    ("P2", mkPlayer "P2" "Bob" pos0 100 [])],
   [], [("c1", "P1"), ("c2", "P2")], []⟩

/-- C7 witness: a chat message targeting another player's identity is
silently dropped. -/
theorem C7_witness :
    handleMessage stC7 "c1" "P1" ⟨some "P2", .chat_message "hi"⟩ = ⟨stC7, [], []⟩ :=
  C7_unauthorized_dropped stC7 "c1" "P1" ⟨some "P2", .chat_message "hi"⟩
    (by simp [lookupA, stC7]) rfl (by simp [jsOrStr])

/-- Two connected players for the view-profile claims. -/
def stC8 : ServerState :=
  ⟨[("P1", mkPlayer "P1" "Alice" pos0 100 []),
    ("P2", mkPlayer "P2" "Bob" pos0 100 [])],
   [], [("c1", "P1"), ("c2", "P2")], []⟩

/-- C8, counterexample: the `world_update` broadcast of lines 653-662 runs
after EVERY processed message, `view_profile` included, so a pure profile
read does trigger a full world broadcast to all connected sessions,
contradicting the claim that it never does. -/
theorem C8_counterexample :
    (Dest.broadcast, OutMsg.world_update stC8.players stC8.worldItems) ∈
      (handleMessage stC8 "c1" "P1" ⟨none, .view_profile "P2"⟩).sent := by
  simp [handleMessage, handleBody, jsOrStr, isViewProfile, lookupA, stC8,
    mkPlayer, pos0]

/-- C8, amended: a `view_profile` request for an existing player replies with
`profile_data` to the requester alone — no other targeted message — but is
then, like every processed message (lines 653-662), followed by the
unconditional full `world_update` broadcast; the state is unchanged. -/
theorem C8_view_profile_amended (st : ServerState) (clientId playerId ppid : String)
    (prof : Player) (hprof : lookupA st.players ppid = some prof) :
    handleMessage st clientId playerId ⟨none, .view_profile ppid⟩ =
      ⟨st, [(Dest.requester, OutMsg.profile_data prof (ppid == playerId)),
            (Dest.broadcast, OutMsg.world_update st.players st.worldItems)], []⟩ := by
  simp [handleMessage, handleBody, jsOrStr, isViewProfile, hprof]

/-- C8 witness: the amended theorem at a concrete profile view. -/
theorem C8_witness :
    handleMessage stC8 "c1" "P1" ⟨none, .view_profile "P2"⟩ =
      ⟨stC8, [(Dest.requester,
               OutMsg.profile_data (mkPlayer "P2" "Bob" pos0 100 []) (("P2" : String) == "P1")),
              (Dest.broadcast, OutMsg.world_update stC8.players stC8.worldItems)], []⟩ :=
  C8_view_profile_amended stC8 "c1" "P1" "P2" (mkPlayer "P2" "Bob" pos0 100 [])
    (by simp [lookupA, stC8])

/-- One connected player for the profile-name claims. -/
def stC9 : ServerState :=
  ⟨[("P1", mkPlayer "P1" "Alice" pos0 100 [])],
   [], [("c1", "P1")], []⟩

/-- The sanitization the claim describes, word for word: keep only
alphanumeric characters, the space, and the hyphen, then truncate to 20. -/
def specSanitizeName (s : String) : String :=
  String.mk ((s.toList.filter (fun c => c.isAlphanum || c == ' ' || c == '-')).take 20)

/-- C9, counterexample: `update_profile` with name `"a_b"` stores `"a_b"`
unchanged, because the `\w` class of the regex on line 640 keeps the
underscore; the claimed alphanumeric/space/hyphen filtering would store
`"ab"`. -/
theorem C9_counterexample :
    (lookupA (handleMessage stC9 "c1" "P1"
        ⟨none, .update_profile (some "a_b")⟩).state.players "P1").map Player.name
      = some "a_b" ∧
    specSanitizeName "a_b" = "ab" ∧ ("a_b" : String) ≠ "ab" := by
  have hsan : sanitizeName "a_b" = "a_b" := by decide
  refine ⟨?_, by decide, by decide⟩
  simp [handleMessage, handleBody, jsOrStr, isViewProfile, jsTruthyStr,
    stC9, mkPlayer, lookupA, updateA, hsan, pos0]

/-- C9, amended: the stored display name is the input filtered to the JS
`\w` word characters (letters, digits, underscore), JS whitespace, and the
hyphen — the underscore is kept, unlike the claimed alphanumeric-only set —
then truncated to at most 20 characters. -/
theorem C9_sanitize_amended (st : ServerState) (clientId playerId s : String)
    (actor : Player)
    (hactor : lookupA st.players playerId = some actor) (hs : s ≠ "") :
    lookupA (handleMessage st clientId playerId
        ⟨none, .update_profile (some s)⟩).state.players playerId
      = some { actor with name := sanitizeName s } ∧
    (sanitizeName s).length ≤ 20 ∧
    ∀ c ∈ (sanitizeName s).toList, (isWordChar c || isJsSpace c || c == '-') = true := by
  refine ⟨?_, ?_, ?_⟩
  · simp only [handleMessage, handleBody, jsOrStr, isViewProfile, jsTruthyStr]
    rw [if_neg (by simp)]
    rw [if_pos (by simp [hs])]
    simp only [lookupA_updateA_self, hactor, Option.map_some']
    rfl
  · simp only [sanitizeName, String.length, String.mk]
    exact le_trans (List.length_take_le _ _) le_rfl
  · intro c hc
    simp only [sanitizeName, String.toList, String.mk] at hc
    have hc2 : c ∈ List.filter
        (fun c => isWordChar c || isJsSpace c || c == '-') s.data :=
      List.mem_of_mem_take hc
    simpa using List.of_mem_filter hc2

/-- C9 witness: the amended theorem at a concrete name carrying an
underscore, angle brackets, and excess length. -/
theorem C9_witness :
    lookupA (handleMessage stC9 "c1" "P1"
        ⟨none, .update_profile (some "<b>Evil_name 12345678901234</b>")⟩).state.players "P1"
      = some { mkPlayer "P1" "Alice" pos0 100 [] with
               name := sanitizeName "<b>Evil_name 12345678901234</b>" } ∧
    (sanitizeName "<b>Evil_name 12345678901234</b>").length ≤ 20 ∧
    ∀ c ∈ (sanitizeName "<b>Evil_name 12345678901234</b>").toList,
      (isWordChar c || isJsSpace c || c == '-') = true :=
  C9_sanitize_amended stC9 "c1" "P1" "<b>Evil_name 12345678901234</b>"
    (mkPlayer "P1" "Alice" pos0 100 []) (by simp [lookupA, stC9]) (by decide)

/-- C10, counterexample: the claim says the damage applied equals the
message's damage field whenever it is present; but `data.damage || 5`
(line 427) treats a present `0` as falsy, so an attack carrying `damage: 0`
subtracts the default 5 — the target drops from 100 to 95 instead of
staying at 100. -/
theorem C10_counterexample :
    (lookupA (handleMessage stC1 "c1" "P1"
        ⟨none, .attack_player "P2" "w1" (some 0)⟩).state.players "P2").map Player.hp
      = some 95 ∧ (95 : ℚ) ≠ 100 - 0 := by
  have hcr : combatInRange ⟨0, 0⟩ ⟨0, 0⟩ = true := by norm_num [combatInRange, distSq]
  have hmax : (0 : ℚ) ⊔ (100 - 5) = 95 := by
    rw [sup_eq_max, max_eq_right (by norm_num : (0 : ℚ) ≤ 100 - 5)]
    norm_num
  refine ⟨?_, by norm_num⟩
  simp [handleMessage, handleBody, handleAttack, lookupA, updateA, findWithIdxP,
    jsOrQ, jsOrStr, isViewProfile, stC1, mkPlayer, ironSword, pos0, hcr, hmax]

/-- C10, amended: for an attack that passes the target/weapon/proximity
checks, the damage subtracted is `jsOrQ damage 5` — the damage field when
present AND nonzero, else the default 5 (a present `0` falls back to 5) —
and the wielded weapon's own stats (in particular its `attack` value) never
influence the applied damage: the conclusion holds for every weapon record
found in the inventory. -/
theorem C10_damage_amended (st : ServerState)
    (clientId playerId targetPlayerId weaponId : String) (dmg : Option ℚ)
    (actor target : Player) (wi : ℕ) (weapon : Item)
    (htarget : lookupA st.players targetPlayerId = some target)
    (hactor : lookupA st.players playerId = some actor)
    (hw : findWithIdxP (fun it => it.itemId == weaponId && it.type == "weapon")
        actor.inventory = some (wi, weapon))
    (hrange : combatInRange actor.position target.position = true) :
    (lookupA (handleMessage st clientId playerId
        ⟨none, .attack_player targetPlayerId weaponId dmg⟩).state.players
      targetPlayerId).map Player.hp = some (max 0 (target.hp - jsOrQ dmg 5)) ∧
    (∀ v : ℚ, v ≠ 0 → jsOrQ (some v) 5 = v) ∧
    jsOrQ (some 0) 5 = 5 ∧ jsOrQ none 5 = 5 := by
  refine ⟨?_, fun v hv => by simp [jsOrQ, hv], by simp [jsOrQ], rfl⟩
  simp [handleMessage, handleBody, handleAttack, jsOrStr, isViewProfile,
    htarget, hactor, hw, hrange, lookupA_updateA_self]

/-- C10 witness: the amended theorem at a concrete attack carrying a nonzero
damage field. -/
theorem C10_witness :
    (lookupA (handleMessage stC1 "c1" "P1"
        ⟨none, .attack_player "P2" "w1" (some 7)⟩).state.players "P2").map Player.hp
      = some (max 0 ((mkPlayer "P2" "Bob" pos0 100 []).hp - jsOrQ (some 7) 5)) ∧
    (∀ v : ℚ, v ≠ 0 → jsOrQ (some v) 5 = v) ∧
    jsOrQ (some 0) 5 = 5 ∧ jsOrQ none 5 = 5 :=
  C10_damage_amended stC1 "c1" "P1" "P2" "w1" (some 7)
    (mkPlayer "P1" "Alice" pos0 100 [ironSword "w1" pos0])
    (mkPlayer "P2" "Bob" pos0 100 []) 0 (ironSword "w1" pos0)
    (by simp [lookupA, stC1]) (by simp [lookupA, stC1])
    (by simp [findWithIdxP, mkPlayer, ironSword, pos0])
    (by norm_num [combatInRange, distSq, mkPlayer, pos0])
